import Mathlib

/-!
Shallow embedding of the core of the furniture-visualizer repository:
the barcode catalog (`src/services/barcodeDatabase.js`) and the local
authentication gate (`src/services/auth.js`).

Modelling conventions:
* JavaScript objects with string-valued fields are embedded as insertion-ordered
  association lists `List (String × α)`; assigning to an existing key keeps the
  key at its original position (as in a JS object), assigning to a fresh key
  appends it.
* `Date.now()` is a parameter `now : Nat` (milliseconds); a single value stands
  for the several `Date.now()` calls inside one operation.
* AsyncStorage is the three auth slots / one catalog map embedded as explicit
  state; storage itself is assumed error-free (the single-actor local store of
  the design), so the catch-and-default error paths of the source never fire.
* The hand-rolled password digest is abstracted as an explicit argument
  `hash : String → String → String` (password, salt); all claims about
  verification quantify over wrong/correct passwords, i.e. over whether the
  computed digest matches the stored one, never over the digest's bits.
* Randomly generated salts and session tokens are explicit arguments.
* Thrown errors become `Except`; a throw aborts the operation, so an `error`
  result carries the state as it stood at the throw.
-/

set_option autoImplicit false

namespace FurnitureVisualizer

/-! ## JS-object association lists -/

/-- Look up a key in an insertion-ordered association list (JS property read:
the value, or `none` when the property is absent). -/
def getKey {α : Type} (l : List (String × α)) (k : String) : Option α :=
  (l.find? (fun p => p.1 == k)).map (fun p => p.2)

/-- JS property assignment `o[k] = v`: an existing key keeps its position and
gets the new value; a fresh key is appended. -/
def setKey {α : Type} (l : List (String × α)) (k : String) (v : α) :
    List (String × α) :=
  if l.any (fun p => p.1 == k) then
    l.map (fun p => if p.1 == k then (k, v) else p)
  else
    l ++ [(k, v)]

/-- A JS object with string-valued fields. -/
abbrev Obj := List (String × String)

/-- JS spread `{...o, ...fields}`: assign every field of `fields`, in order,
on top of `o`. -/
def objSpread (o : Obj) (fields : Obj) : Obj :=
  fields.foldl (fun acc kv => setKey acc kv.1 kv.2) o

/-! ## Barcode catalog (`barcodeDatabase.js`) -/

/-- The in-memory barcode database: barcode key ↦ record object, in insertion
order (`barcodeData` in the source). -/
abbrev Db := List (String × Obj)

/-- Embedding of `isValidBarcode`: the test `/^(STYLE|MAT)-\d{3,}$/.test(barcode)` — the
string is `STYLE-` or `MAT-` followed by at least three decimal digits and
nothing else. A non-string argument cannot arise here since the input type is
`String`; the empty string falls through to `false` as in the source. -/
def isValidBarcode (s : String) : Bool :=
  match s.data with
  | 'S' :: 'T' :: 'Y' :: 'L' :: 'E' :: '-' :: rest =>
      decide (rest.length ≥ 3) && rest.all Char.isDigit
  | 'M' :: 'A' :: 'T' :: '-' :: rest =>
      decide (rest.length ≥ 3) && rest.all Char.isDigit
  | _ => false

/-- Specification-side reading of the pattern `^(STYLE|MAT)-\d{3,}$`, written
independently of `isValidBarcode`: the character list is one of the two literal
heads followed by at least three digits. -/
def matchesBarcodePattern (s : String) : Prop :=
  ∃ ds : List Char, ds.length ≥ 3 ∧ (∀ c ∈ ds, c.isDigit) ∧
    (s.data = ['S', 'T', 'Y', 'L', 'E', '-'] ++ ds ∨
     s.data = ['M', 'A', 'T', '-'] ++ ds)

/-- The record object stored by `addBarcode`: the literal `{ id: barcode,
...data }` — the `id` field is written first and the caller's fields are spread
on top of it. -/
def mkBarcodeRecord (barcode : String) (data : Obj) : Obj :=
  objSpread [("id", barcode)] data

/-- The seed records of `barcodeData`, in source order. -/
def initialBarcodeData : Db :=
  [ ("STYLE-001",
     [("id", "STYLE-001"), ("type", "style"),
      ("name", "Modern Sectional Sofa"),
      ("description", "L-shaped contemporary sectional with clean lines"),
      ("imageUrl", "https://images.unsplash.com/photo-1555041469-a586c61ea9bc?w=800")]),
    ("STYLE-002",
     [("id", "STYLE-002"), ("type", "style"),
      ("name", "Classic Chesterfield Sofa"),
      ("description", "Traditional tufted sofa with rolled arms"),
      ("imageUrl", "https://images.unsplash.com/photo-1493663284031-b7e3aefcae8e?w=800")]),
    ("STYLE-003",
     [("id", "STYLE-003"), ("type", "style"),
      ("name", "Mid-Century Armchair"),
      ("description", "Retro-inspired chair with wooden legs"),
      ("imageUrl", "https://images.unsplash.com/photo-1506439773649-6e0eb8cfb237?w=800")]),
    ("STYLE-004",
     [("id", "STYLE-004"), ("type", "style"),
      ("name", "Scandinavian Loveseat"),
      ("description", "Minimalist two-seater with tapered legs"),
      ("imageUrl", "https://images.unsplash.com/photo-1550254478-ead40cc54513?w=800")]),
    ("STYLE-005",
     [("id", "STYLE-005"), ("type", "style"),
      ("name", "Leather Recliner"),
      ("description", "Comfortable power recliner with headrest"),
      ("imageUrl", "https://images.unsplash.com/photo-1567538096630-e0c55bd6374c?w=800")]),
    ("MAT-001",
     [("id", "MAT-001"), ("type", "material"),
      ("name", "Grey Linen Fabric"),
      ("description", "Natural linen in neutral grey tone"),
      ("imageUrl", "https://images.unsplash.com/photo-1558618666-fcd25c85cd64?w=800")]),
    ("MAT-002",
     [("id", "MAT-002"), ("type", "material"),
      ("name", "Navy Blue Velvet"),
      ("description", "Rich velvet in deep navy color"),
      ("imageUrl", "https://images.unsplash.com/photo-1558171813-4c088753af8f?w=800")]),
    ("MAT-003",
     [("id", "MAT-003"), ("type", "material"),
      ("name", "Cognac Leather"),
      ("description", "Premium full-grain leather in warm cognac"),
      ("imageUrl", "https://images.unsplash.com/photo-1531685250784-7569952593d2?w=800")]),
    ("MAT-004",
     [("id", "MAT-004"), ("type", "material"),
      ("name", "Emerald Green Velvet"),
      ("description", "Luxurious velvet in jewel-tone green"),
      ("imageUrl", "https://images.unsplash.com/photo-1507003211169-0a1dd7228f2d?w=800")]),
    ("MAT-005",
     [("id", "MAT-005"), ("type", "material"),
      ("name", "Cream Boucle"),
      ("description", "Textured boucle fabric in soft cream"),
      ("imageUrl", "https://images.unsplash.com/photo-1558618047-3c8c76ca7d13?w=800")]),
    ("MAT-006",
     [("id", "MAT-006"), ("type", "material"),
      ("name", "Charcoal Tweed"),
      ("description", "Classic wool tweed in charcoal grey"),
      ("imageUrl", "https://images.unsplash.com/photo-1558171014-33c9310d7bc9?w=800")]) ]

/-- Embedding of `getBarcodeData`: `null` on an invalid barcode, else
`barcodeData[barcode] || null` (a record object is always truthy). -/
def getBarcodeData (barcode : String) (db : Db) : Option Obj :=
  if !isValidBarcode barcode then
    none
  else
    getKey db barcode

/-- The single error `addBarcode` can throw. -/
inductive BarcodeError : Type where
  | invalidFormat : BarcodeError
  deriving DecidableEq, Repr

instance {ε α : Type} [DecidableEq ε] [DecidableEq α] : DecidableEq (Except ε α)
  | .error e, .error f =>
    if h : e = f then .isTrue (h ▸ rfl)
    else .isFalse fun hc => h (Except.error.inj hc)
  | .error _, .ok _ => .isFalse fun hc => Except.noConfusion hc
  | .ok _, .error _ => .isFalse fun hc => Except.noConfusion hc
  | .ok a, .ok b =>
    if h : a = b then .isTrue (h ▸ rfl)
    else .isFalse fun hc => h (Except.ok.inj hc)

/-- Embedding of `addBarcode`: throws `invalidFormat` on an invalid barcode (before touching
the map); otherwise stores `{ id: barcode, ...data }` under the key,
overwriting any prior record, and returns the updated map (`true` in JS). -/
def addBarcode (barcode : String) (data : Obj) (db : Db) :
    Except BarcodeError Db :=
  if !isValidBarcode barcode then
    .error .invalidFormat
  else
    .ok (setKey db barcode (mkBarcodeRecord barcode data))

/-- Embedding of `Object.values(barcodeData)` — the records in key insertion order (all keys
here are non-index strings, so JS enumeration order is insertion order). -/
def dbValues (db : Db) : List Obj :=
  db.map (fun p => p.2)

/-- Embedding of `getBarcodesByType`: `Object.values(barcodeData).filter(item => item.type
=== type)`. A record with no `type` field compares unequal to any string. -/
def getBarcodesByType (type : String) (db : Db) : List Obj :=
  (dbValues db).filter (fun item => getKey item "type" == some type)

/-! ## Auth gate (`auth.js`) -/

/-- Session timeout in milliseconds (30 minutes). -/
def SESSION_TIMEOUT : Nat := 30 * 60 * 1000

/-- Max failed attempts before lockout. -/
def MAX_FAILED_ATTEMPTS : Nat := 5

/-- Lockout duration in milliseconds (15 minutes). -/
def LOCKOUT_DURATION : Nat := 15 * 60 * 1000

/-- The record stored under the admin-credentials slot. -/
structure Credentials : Type where
  hash : String
  salt : String
  createdAt : Nat
  updatedAt : Nat
  deriving DecidableEq, Repr

/-- The record stored under the auth-session slot. -/
structure Session : Type where
  token : String
  createdAt : Nat
  expiresAt : Nat
  deriving DecidableEq, Repr

/-- The record stored under the failed-attempts slot; `lockoutUntil` is present
only once the attempt count has reached the maximum. -/
structure FailedAttempts : Type where
  attempts : Nat
  lockoutUntil : Option Nat
  deriving DecidableEq, Repr

/-- The three AsyncStorage slots of the auth service; `none` is an absent key. -/
structure AuthState : Type where
  credentials : Option Credentials
  session : Option Session
  failedAttempts : Option FailedAttempts
  deriving DecidableEq, Repr

/-- The result object of `getLockoutStatus`. -/
structure LockoutStatus : Type where
  isLocked : Bool
  remainingTime : Nat
  attempts : Nat
  deriving DecidableEq, Repr

/-- The distinguishable errors the auth service throws. -/
inductive AuthError : Type where
  | lockedOut (minutes : Nat) : AuthError
  | notSetUp : AuthError
  | tooManyAttempts : AuthError
  | invalidPassword (remainingAttempts : Nat) : AuthError
  | weakPassword : AuthError
  deriving DecidableEq, Repr

/-- Embedding of `getLockoutStatus`: absent record ⇒ not locked, zero attempts. With a
record: a truthy `lockoutUntil` still in the future ⇒ locked with the remaining
milliseconds; a truthy `lockoutUntil` at or before `now` ⇒ delete the record
and report not locked, zero attempts; otherwise ⇒ not locked with the stored
attempt count. A `lockoutUntil` of `0` is falsy in JS, hence the `u ≠ 0`
guards. -/
def getLockoutStatus (now : Nat) (st : AuthState) : LockoutStatus × AuthState :=
  match st.failedAttempts with
  | none => (⟨false, 0, 0⟩, st)
  | some fa =>
    match fa.lockoutUntil with
    | some u =>
      if u ≠ 0 ∧ now < u then
        (⟨true, u - now, fa.attempts⟩, st)
      else if u ≠ 0 ∧ now ≥ u then
        (⟨false, 0, 0⟩, { st with failedAttempts := none })
      else
        (⟨false, 0, fa.attempts⟩, st)
    | none => (⟨false, 0, fa.attempts⟩, st)

/-- The result object of `recordFailedAttempt`. -/
structure AttemptResult : Type where
  attempts : Nat
  isLocked : Bool
  remainingAttempts : Nat
  deriving DecidableEq, Repr

/-- Embedding of `recordFailedAttempt`: increment the stored attempt count (starting from 1
when the record is absent), attach `lockoutUntil = now + LOCKOUT_DURATION` once
the count reaches the maximum, store the fresh record, and report the count,
whether it locked, and `max(0, MAX - attempts)` remaining attempts. -/
def recordFailedAttempt (now : Nat) (st : AuthState) :
    AttemptResult × AuthState :=
  let attempts : Nat :=
    match st.failedAttempts with
    | none => 1
    | some fa => fa.attempts + 1
  let lockoutUntil : Option Nat :=
    if attempts ≥ MAX_FAILED_ATTEMPTS then some (now + LOCKOUT_DURATION)
    else none
  (⟨attempts, decide (attempts ≥ MAX_FAILED_ATTEMPTS),
    MAX_FAILED_ATTEMPTS - attempts⟩,
   { st with failedAttempts := some ⟨attempts, lockoutUntil⟩ })

/-- Embedding of `clearFailedAttempts`: remove the failed-attempts record. -/
def clearFailedAttempts (st : AuthState) : AuthState :=
  { st with failedAttempts := none }

/-- Embedding of `logout`: remove the session record; returns `true` (storage errors are not
modelled). -/
def logout (st : AuthState) : Bool × AuthState :=
  (true, { st with session := none })

/-- Embedding of `verifyAdminPassword`: check the lockout status (whose expiry cleanup may
already change the state), fail `lockedOut` with the ceiling of the remaining
minutes while locked; fail `notSetUp` without a credential; on a digest
mismatch record a failed attempt (the write persists even though the call then
throws) and fail `tooManyAttempts` when that attempt locked, else
`invalidPassword` with the remaining attempts; on a match clear the
failed-attempts record, store a session expiring at `now + SESSION_TIMEOUT`
with the fresh token, and return the token. -/
def verifyAdminPassword (hash : String → String → String) (newToken : String)
    (now : Nat) (password : String) (st : AuthState) :
    Except AuthError String × AuthState :=
  let (lockoutStatus, st1) := getLockoutStatus now st
  if lockoutStatus.isLocked then
    (.error (.lockedOut ((lockoutStatus.remainingTime + 59999) / 60000)), st1)
  else
    match st1.credentials with
    | none => (.error .notSetUp, st1)
    | some cred =>
      if hash password cred.salt ≠ cred.hash then
        let (attemptResult, st2) := recordFailedAttempt now st1
        if attemptResult.isLocked then
          (.error .tooManyAttempts, st2)
        else
          (.error (.invalidPassword attemptResult.remainingAttempts), st2)
      else
        let st2 := clearFailedAttempts st1
        let session : Session := ⟨newToken, now, now + SESSION_TIMEOUT⟩
        (.ok newToken, { st2 with session := some session })

/-- Embedding of `isSessionValid`: `false` without a session; when `now > expiresAt` the
session is deleted via `logout` and the result is `false`; otherwise `true`. -/
def isSessionValid (now : Nat) (st : AuthState) : Bool × AuthState :=
  match st.session with
  | none => (false, st)
  | some s =>
    if now > s.expiresAt then
      (false, (logout st).2)
    else
      (true, st)

/-- Embedding of `extendSession`: `false` without a session; otherwise overwrite
`expiresAt` with `now + SESSION_TIMEOUT` (no expiry check) and return
`true`. -/
def extendSession (now : Nat) (st : AuthState) : Bool × AuthState :=
  match st.session with
  | none => (false, st)
  | some s =>
    (true, { st with session := some { s with expiresAt := now + SESSION_TIMEOUT } })

/-- Embedding of `changeAdminPassword`: fail `weakPassword` when the new password is absent
or shorter than six characters (an absent/empty password has length `0`);
otherwise run the full `verifyAdminPassword` on the current password,
propagating its error and its state changes; on success overwrite the
credential with a fresh salt and digest and delete the session via
`logout`. -/
def changeAdminPassword (hash : String → String → String)
    (newSalt newToken : String) (now : Nat)
    (currentPassword newPassword : String) (st : AuthState) :
    Except AuthError Bool × AuthState :=
  if newPassword.length < 6 then
    (.error .weakPassword, st)
  else
    match verifyAdminPassword hash newToken now currentPassword st with
    | (.error e, st1) => (.error e, st1)
    | (.ok _, st1) =>
      let credentials : Credentials :=
        ⟨hash newPassword newSalt, newSalt, now, now⟩
      let st2 := { st1 with credentials := some credentials }
      (.ok true, (logout st2).2)

/-! ## Association-list lemmas -/

theorem find_pair_cons_pos {α : Type} (k : String) (q : String × α)
    (l : List (String × α)) (hq : (q.1 == k) = true) :
    (q :: l).find? (fun p => p.1 == k) = some q :=
  List.find?_cons_of_pos l hq

theorem find_pair_cons_neg {α : Type} (k : String) (q : String × α)
    (l : List (String × α)) (hq : (q.1 == k) = false) :
    (q :: l).find? (fun p => p.1 == k) = l.find? (fun p => p.1 == k) :=
  List.find?_cons_of_neg l (by simp [hq])

theorem find_replace_of_any {α : Type} (k : String) (v : α) (l : List (String × α))
    (h : l.any (fun p => p.1 == k) = true) :
    (l.map (fun p => if p.1 == k then (k, v) else p)).find? (fun p => p.1 == k) =
      some (k, v) := by
  induction l with
  | nil => simp at h
  | cons p t ih =>
    simp only [List.map_cons]
    by_cases hp : (p.1 == k) = true
    · rw [if_pos hp]
      exact find_pair_cons_pos k (k, v) _ (by simp)
    · have hp' : (p.1 == k) = false := by
        rw [Bool.not_eq_true] at hp
        exact hp
      rw [List.any_cons, Bool.or_eq_true] at h
      have ht : t.any (fun q => q.1 == k) = true := by
        rcases h with h1 | h2
        · rw [hp'] at h1
          exact absurd h1 (by simp)
        · exact h2
      rw [if_neg hp, find_pair_cons_neg k p _ hp']
      exact ih ht

theorem find_append_single {α : Type} (k : String) (v : α) (l : List (String × α))
    (h : l.any (fun p => p.1 == k) = false) :
    (l ++ [(k, v)]).find? (fun p => p.1 == k) = some (k, v) := by
  have hl : l.find? (fun p => p.1 == k) = none := by
    rw [List.find?_eq_none]
    exact List.any_eq_false.mp h
  rw [List.find?_append, hl, Option.none_or]
  exact find_pair_cons_pos k (k, v) [] (by simp)

theorem getKey_setKey_self {α : Type} (l : List (String × α)) (k : String) (v : α) :
    getKey (setKey l k v) k = some v := by
  unfold getKey setKey
  by_cases h : l.any (fun p => p.1 == k) = true
  · rw [if_pos h, find_replace_of_any k v l h]
    rfl
  · have h' : l.any (fun p => p.1 == k) = false := by
      rw [Bool.not_eq_true] at h
      exact h
    rw [if_neg h, find_append_single k v l h']
    rfl

theorem find_replace_ne {α : Type} (k k' : String) (v : α) (hkk : (k == k') = false)
    (l : List (String × α)) :
    (l.map (fun p => if p.1 == k then (k, v) else p)).find? (fun p => p.1 == k') =
      l.find? (fun p => p.1 == k') := by
  induction l with
  | nil => rfl
  | cons p t ih =>
    simp only [List.map_cons]
    by_cases hp : (p.1 == k) = true
    · have hp' : (p.1 == k') = false := by rw [eq_of_beq hp]; exact hkk
      rw [if_pos hp, find_pair_cons_neg k' (k, v) _ (by simp [hkk]),
        find_pair_cons_neg k' p _ hp', ih]
    · rw [if_neg hp]
      by_cases hq : (p.1 == k') = true
      · rw [find_pair_cons_pos k' p _ hq, find_pair_cons_pos k' p _ hq]
      · have hq' : (p.1 == k') = false := by
          rw [Bool.not_eq_true] at hq
          exact hq
        rw [find_pair_cons_neg k' p _ hq', find_pair_cons_neg k' p _ hq', ih]

theorem getKey_setKey_of_ne {α : Type} (l : List (String × α)) (k k' : String) (v : α)
    (hkk : (k == k') = false) :
    getKey (setKey l k v) k' = getKey l k' := by
  unfold getKey setKey
  by_cases h : l.any (fun p => p.1 == k) = true
  · rw [if_pos h, find_replace_ne k k' v hkk l]
  · rw [if_neg h, List.find?_append]
    have hnone : List.find? (fun p => p.1 == k') [(k, v)] = none := by
      rw [find_pair_cons_neg k' (k, v) [] hkk]
      rfl
    rw [hnone, Option.or_none]

theorem getKey_objSpread_not_mem (k : String) :
    ∀ (fields o : Obj), (∀ q ∈ fields, (q.1 == k) = false) →
      getKey (objSpread o fields) k = getKey o k
  | [], _, _ => rfl
  | q :: t, o, h => by
    have hq : (q.1 == k) = false := h q (List.mem_cons_self q t)
    have ht : ∀ p ∈ t, (p.1 == k) = false := fun p hp => h p (List.mem_cons_of_mem q hp)
    show getKey (objSpread (setKey o q.1 q.2) t) k = getKey o k
    rw [getKey_objSpread_not_mem k t (setKey o q.1 q.2) ht,
      getKey_setKey_of_ne o q.1 k q.2 hq]

theorem getKey_objSpread (k : String) :
    ∀ (fields o : Obj), (fields.map Prod.fst).Nodup →
      getKey (objSpread o fields) k = (getKey fields k).or (getKey o k)
  | [], o, _ => by
    show getKey o k = (getKey [] k).or (getKey o k)
    rfl
  | q :: t, o, h => by
    rw [List.map_cons, List.nodup_cons] at h
    obtain ⟨hq_not, ht⟩ := h
    show getKey (objSpread (setKey o q.1 q.2) t) k = (getKey (q :: t) k).or (getKey o k)
    by_cases hq : (q.1 == k) = true
    · have hkeq : q.1 = k := eq_of_beq hq
      have htno : ∀ p ∈ t, (p.1 == k) = false := by
        intro p hp
        by_contra hc
        have hpk : p.1 = k := eq_of_beq (by simpa using hc)
        exact hq_not (by rw [hkeq, ← hpk]; exact List.mem_map_of_mem Prod.fst hp)
      rw [getKey_objSpread_not_mem k t (setKey o q.1 q.2) htno, hkeq,
        getKey_setKey_self]
      have hget : getKey (q :: t) k = some q.2 := by
        unfold getKey
        rw [find_pair_cons_pos k q t hq]
        rfl
      rw [hget]
      rfl
    · have hq' : (q.1 == k) = false := by simpa using hq
      rw [getKey_objSpread k t (setKey o q.1 q.2) ht,
        getKey_setKey_of_ne o q.1 k q.2 hq']
      have hget : getKey (q :: t) k = getKey t k := by
        unfold getKey
        rw [find_pair_cons_neg k q t hq']
      rw [hget]

theorem getKey_mkBarcodeRecord_id (barcode : String) (data : Obj)
    (h : (data.map Prod.fst).Nodup) :
    getKey (mkBarcodeRecord barcode data) "id" =
      some ((getKey data "id").getD barcode) := by
  unfold mkBarcodeRecord
  rw [getKey_objSpread "id" data [("id", barcode)] h]
  cases hd : getKey data "id" with
  | none =>
    rw [Option.none_or]
    unfold getKey
    rw [find_pair_cons_pos "id" ("id", barcode) [] (by simp)]
    rfl
  | some v => rfl

theorem any_eq_false_of_getKey_none {α : Type} (db : List (String × α)) (k : String)
    (h : getKey db k = none) : db.any (fun p => p.1 == k) = false := by
  have hf : db.find? (fun p => p.1 == k) = none := Option.map_eq_none'.mp h
  rw [List.any_eq_false]
  exact List.find?_eq_none.mp hf

theorem isValidBarcode_iff (s : String) :
    isValidBarcode s = true ↔ matchesBarcodePattern s := by
  constructor
  · intro h
    unfold isValidBarcode at h
    split at h
    · rename_i rest heq
      rw [Bool.and_eq_true, decide_eq_true_eq] at h
      refine ⟨rest, h.1, fun c hc => List.all_eq_true.mp h.2 c hc, Or.inl ?_⟩
      rw [heq]
      rfl
    · rename_i rest heq
      rw [Bool.and_eq_true, decide_eq_true_eq] at h
      refine ⟨rest, h.1, fun c hc => List.all_eq_true.mp h.2 c hc, Or.inr ?_⟩
      rw [heq]
      rfl
    · exact absurd h (by simp)
  · rintro ⟨ds, hlen, hdig, hcase | hcase⟩
    · unfold isValidBarcode
      rw [hcase]
      show (decide (ds.length ≥ 3) && ds.all Char.isDigit) = true
      rw [Bool.and_eq_true, decide_eq_true_eq]
      exact ⟨hlen, List.all_eq_true.mpr hdig⟩
    · unfold isValidBarcode
      rw [hcase]
      show (decide (ds.length ≥ 3) && ds.all Char.isDigit) = true
      rw [Bool.and_eq_true, decide_eq_true_eq]
      exact ⟨hlen, List.all_eq_true.mpr hdig⟩

theorem not_matches_of_not_valid (s : String) (h : isValidBarcode s = false) :
    ¬ matchesBarcodePattern s := by
  intro hm
  have hv := (isValidBarcode_iff s).mpr hm
  rw [h] at hv
  exact Bool.false_ne_true hv

/-- C3: a string that fails the pattern `^(STYLE|MAT)-\d{3,}$` is rejected by
`isValidBarcode`, is looked up as absent by `getBarcodeData` on every catalog
(no error is possible), and is refused by `addBarcode` with the invalid-format
error before the catalog is touched. -/
theorem invalid_barcode_rejected (s : String) (h : ¬ matchesBarcodePattern s) :
    isValidBarcode s = false ∧
    (∀ db : Db, getBarcodeData s db = none) ∧
    (∀ (db : Db) (fields : Obj), addBarcode s fields db = .error .invalidFormat) := by
  have hv : isValidBarcode s = false := by
    cases hb : isValidBarcode s
    · rfl
    · exact absurd ((isValidBarcode_iff s).mp hb) h
  refine ⟨hv, fun db => ?_, fun db fields => ?_⟩
  · unfold getBarcodeData
    rw [hv]
    rfl
  · unfold addBarcode
    rw [hv]
    rfl

/-- Witness for C3 at the concrete non-matching string `"STYLE-12"` (only two
digits). -/
theorem invalid_barcode_rejected_witness :
    isValidBarcode "STYLE-12" = false ∧
    getBarcodeData "STYLE-12" initialBarcodeData = none ∧
    addBarcode "STYLE-12" [("name", "X")] initialBarcodeData =
      .error .invalidFormat := by
  have h := invalid_barcode_rejected "STYLE-12"
    (not_matches_of_not_valid "STYLE-12" (by decide))
  exact ⟨h.1, h.2.1 initialBarcodeData, h.2.2 initialBarcodeData [("name", "X")]⟩

/-- C4: on a valid id, `addBarcode` stores exactly `{id, ...f}` and a lookup
returns it; a second `addBarcode` under the same key replaces the whole record
with `{id, ...f2}`, so nothing of `f` survives in the second lookup. -/
theorem insert_lookup_overwrite (id : String) (f f2 : Obj) (db : Db)
    (h : isValidBarcode id = true) :
    addBarcode id f db = .ok (setKey db id (mkBarcodeRecord id f)) ∧
    getBarcodeData id (setKey db id (mkBarcodeRecord id f)) =
      some (mkBarcodeRecord id f) ∧
    addBarcode id f2 (setKey db id (mkBarcodeRecord id f)) =
      .ok (setKey (setKey db id (mkBarcodeRecord id f)) id
        (mkBarcodeRecord id f2)) ∧
    getBarcodeData id (setKey (setKey db id (mkBarcodeRecord id f)) id
        (mkBarcodeRecord id f2)) =
      some (mkBarcodeRecord id f2) := by
  refine ⟨?_, ?_, ?_, ?_⟩
  · unfold addBarcode
    rw [h]
    rfl
  · unfold getBarcodeData
    rw [h]
    show getKey (setKey db id (mkBarcodeRecord id f)) id =
      some (mkBarcodeRecord id f)
    exact getKey_setKey_self db id (mkBarcodeRecord id f)
  · unfold addBarcode
    rw [h]
    rfl
  · unfold getBarcodeData
    rw [h]
    show getKey (setKey (setKey db id (mkBarcodeRecord id f)) id
        (mkBarcodeRecord id f2)) id = some (mkBarcodeRecord id f2)
    exact getKey_setKey_self _ id (mkBarcodeRecord id f2)

/-- Witness for C4 at the fresh valid id `"STYLE-777"`. -/
theorem insert_lookup_overwrite_witness :
    addBarcode "STYLE-777" [("name", "A")] initialBarcodeData =
      .ok (setKey initialBarcodeData "STYLE-777"
        (mkBarcodeRecord "STYLE-777" [("name", "A")])) ∧
    getBarcodeData "STYLE-777" (setKey initialBarcodeData "STYLE-777"
        (mkBarcodeRecord "STYLE-777" [("name", "A")])) =
      some (mkBarcodeRecord "STYLE-777" [("name", "A")]) ∧
    addBarcode "STYLE-777" [("name", "B")] (setKey initialBarcodeData "STYLE-777"
        (mkBarcodeRecord "STYLE-777" [("name", "A")])) =
      .ok (setKey (setKey initialBarcodeData "STYLE-777"
          (mkBarcodeRecord "STYLE-777" [("name", "A")])) "STYLE-777"
        (mkBarcodeRecord "STYLE-777" [("name", "B")])) ∧
    getBarcodeData "STYLE-777" (setKey (setKey initialBarcodeData "STYLE-777"
          (mkBarcodeRecord "STYLE-777" [("name", "A")])) "STYLE-777"
        (mkBarcodeRecord "STYLE-777" [("name", "B")])) =
      some (mkBarcodeRecord "STYLE-777" [("name", "B")]) :=
  insert_lookup_overwrite "STYLE-777" [("name", "A")] [("name", "B")]
    initialBarcodeData (by decide)

/-- C8: `getBarcodesByType` returns exactly the records whose `type` field
equals the argument, as a sublist of the values in insertion order; a type with
no matching record yields `[]` rather than an error; and an insert under a
fresh valid key appends its record to the value sequence (seed order first,
later inserts after). -/
theorem listByType_spec (type : String) (db : Db) :
    (getBarcodesByType type db).Sublist (dbValues db) ∧
    (∀ r : Obj, r ∈ getBarcodesByType type db ↔
      r ∈ dbValues db ∧ getKey r "type" = some type) ∧
    ((∀ r ∈ dbValues db, getKey r "type" ≠ some type) →
      getBarcodesByType type db = []) ∧
    (∀ (id : String) (f : Obj) (db1 : Db), getKey db id = none →
      addBarcode id f db = .ok db1 →
      dbValues db1 = dbValues db ++ [mkBarcodeRecord id f]) := by
  refine ⟨List.filter_sublist _, fun r => ?_, fun hno => ?_,
    fun id f db1 hfresh hok => ?_⟩
  · unfold getBarcodesByType
    rw [List.mem_filter]
    constructor
    · rintro ⟨h1, h2⟩
      exact ⟨h1, by simpa using h2⟩
    · rintro ⟨h1, h2⟩
      exact ⟨h1, by simpa using h2⟩
  · unfold getBarcodesByType
    rw [List.filter_eq_nil_iff]
    intro r hr
    simpa using hno r hr
  · cases hv : isValidBarcode id with
    | false =>
      unfold addBarcode at hok
      rw [hv] at hok
      exact absurd hok (by simp)
    | true =>
      unfold addBarcode at hok
      rw [hv] at hok
      have hdb1 : setKey db id (mkBarcodeRecord id f) = db1 := by
        simpa using hok
      have hany : db.any (fun p => p.1 == id) = false :=
        any_eq_false_of_getKey_none db id hfresh
      rw [← hdb1]
      unfold setKey
      rw [hany]
      simp [dbValues]

/-- Witness for C8: the seed catalog has no record of type
`"nonexistent-type"`, and inserting `STYLE-100` appends its record after the
seed values. -/
theorem listByType_spec_witness :
    getBarcodesByType "nonexistent-type" initialBarcodeData = [] ∧
    dbValues (setKey initialBarcodeData "STYLE-100"
        (mkBarcodeRecord "STYLE-100" [("type", "style")])) =
      dbValues initialBarcodeData ++
        [mkBarcodeRecord "STYLE-100" [("type", "style")]] := by
  constructor
  · exact (listByType_spec "nonexistent-type" initialBarcodeData).2.2.1
      (by decide)
  · exact (listByType_spec "style" initialBarcodeData).2.2.2 "STYLE-100"
      [("type", "style")]
      (setKey initialBarcodeData "STYLE-100"
        (mkBarcodeRecord "STYLE-100" [("type", "style")]))
      (by decide) (by decide)

/-- C10 counterexample: with `fields = {id: "STYLE-001"}` spread under the key
`"STYLE-001"`, the stored record's `id` field equals the barcode key even
though `fields` does contain an `id` property, refuting the claim that the
stored `id` equals the key only when `fields` has no `id` property. -/
theorem stored_id_counterexample :
    getKey ([("id", "STYLE-001")] : Obj) "id" ≠ none ∧
    addBarcode "STYLE-001" [("id", "STYLE-001")] ([] : Db) =
      .ok [("STYLE-001", [("id", "STYLE-001")])] ∧
    getBarcodeData "STYLE-001" [("STYLE-001", [("id", "STYLE-001")])] =
      some [("id", "STYLE-001")] ∧
    getKey ([("id", "STYLE-001")] : Obj) "id" = some "STYLE-001" := by
  decide

/-- C10 amended: the stored record's `id` field is `fields.id` when the
supplied fields contain an `id` property (the spread of the caller's fields
comes after the key-derived `id`) and the barcode key otherwise; lookup under
the key returns exactly that record. -/
theorem stored_id_field (id : String) (fields : Obj) (db : Db)
    (hv : isValidBarcode id = true) (hnd : (fields.map Prod.fst).Nodup) :
    addBarcode id fields db = .ok (setKey db id (mkBarcodeRecord id fields)) ∧
    getBarcodeData id (setKey db id (mkBarcodeRecord id fields)) =
      some (mkBarcodeRecord id fields) ∧
    getKey (mkBarcodeRecord id fields) "id" =
      some ((getKey fields "id").getD id) := by
  refine ⟨?_, ?_, getKey_mkBarcodeRecord_id id fields hnd⟩
  · unfold addBarcode
    rw [hv]
    rfl
  · unfold getBarcodeData
    rw [hv]
    show getKey (setKey db id (mkBarcodeRecord id fields)) id =
      some (mkBarcodeRecord id fields)
    exact getKey_setKey_self db id (mkBarcodeRecord id fields)

/-- Witness for the amended C10 at `fields = {id: "MAT-999"}` under the key
`"STYLE-001"`: the stored `id` is `"MAT-999"`, which differs from the key. -/
theorem stored_id_field_witness :
    (addBarcode "STYLE-001" [("id", "MAT-999")] ([] : Db) =
      .ok (setKey [] "STYLE-001"
        (mkBarcodeRecord "STYLE-001" [("id", "MAT-999")])) ∧
    getBarcodeData "STYLE-001" (setKey [] "STYLE-001"
        (mkBarcodeRecord "STYLE-001" [("id", "MAT-999")])) =
      some (mkBarcodeRecord "STYLE-001" [("id", "MAT-999")]) ∧
    getKey (mkBarcodeRecord "STYLE-001" [("id", "MAT-999")]) "id" =
      some ((getKey ([("id", "MAT-999")] : Obj) "id").getD "STYLE-001")) ∧
    some ((getKey ([("id", "MAT-999")] : Obj) "id").getD "STYLE-001") ≠
      some "STYLE-001" :=
  ⟨stored_id_field "STYLE-001" [("id", "MAT-999")] [] (by decide) (by decide),
   by decide⟩

theorem getLockoutStatus_preserves (now : Nat) (st : AuthState) :
    (getLockoutStatus now st).2.credentials = st.credentials ∧
    (getLockoutStatus now st).2.session = st.session := by
  obtain ⟨c, s, fa⟩ := st
  cases fa with
  | none => exact ⟨rfl, rfl⟩
  | some a =>
    obtain ⟨att, lu⟩ := a
    cases lu with
    | none => exact ⟨rfl, rfl⟩
    | some u =>
      simp only [getLockoutStatus]
      split
      · exact ⟨rfl, rfl⟩
      · split
        · exact ⟨rfl, rfl⟩
        · exact ⟨rfl, rfl⟩

/-- C6: `getLockoutStatus` with no record reports not-locked and zero
attempts; with a (positive) `lockoutUntil` at or before `now` it deletes the
failed-attempt record and reports not-locked and zero attempts; with
`lockoutUntil` still in the future it reports locked with the remaining
milliseconds and the stored attempt count. -/
theorem lockout_status_spec (now : Nat) (st : AuthState) :
    (st.failedAttempts = none →
      getLockoutStatus now st = (⟨false, 0, 0⟩, st)) ∧
    (∀ a u, st.failedAttempts = some ⟨a, some u⟩ → 0 < u → u ≤ now →
      getLockoutStatus now st =
        (⟨false, 0, 0⟩, { st with failedAttempts := none })) ∧
    (∀ a u, st.failedAttempts = some ⟨a, some u⟩ → now < u →
      getLockoutStatus now st = (⟨true, u - now, a⟩, st)) := by
  refine ⟨fun h => ?_, fun a u h hu hle => ?_, fun a u h hlt => ?_⟩
  · simp only [getLockoutStatus, h]
  · simp only [getLockoutStatus, h]
    rw [if_neg (by omega), if_pos (by omega)]
  · simp only [getLockoutStatus, h]
    rw [if_pos (by omega)]

/-- Witness for C6 at an expired lockout (`lockoutUntil = 3 ≤ now = 10`) and
at an active one (`lockoutUntil = 900010 > now = 10`). -/
theorem lockout_status_spec_witness :
    getLockoutStatus 10 ⟨none, none, some ⟨5, some 3⟩⟩ =
      (⟨false, 0, 0⟩, ⟨none, none, none⟩) ∧
    getLockoutStatus 10 ⟨none, none, some ⟨5, some 900010⟩⟩ =
      (⟨true, 900000, 5⟩, ⟨none, none, some ⟨5, some 900010⟩⟩) := by
  constructor
  · exact (lockout_status_spec 10 ⟨none, none, some ⟨5, some 3⟩⟩).2.1 5 3 rfl
      (by decide) (by decide)
  · exact (lockout_status_spec 10 ⟨none, none, some ⟨5, some 900010⟩⟩).2.2
      5 900010 rfl (by decide)

/-- C2 counterexample: at `now = expiresAt` (both `5`) `isSessionValid`
returns `true` although `now < expiresAt` fails, refuting the claimed
"valid iff now < expiresAt" (the code tests `now > expiresAt`). -/
theorem session_validity_counterexample :
    (isSessionValid 5 ⟨none, some ⟨"t", 0, 5⟩, none⟩).1 = true ∧ ¬ (5 < 5) := by
  decide

/-- C2 amended: a session is valid iff it exists and `now ≤ expiresAt`; when
`expiresAt < now` the check deletes the session and returns false, and every
immediately following check finds no session and returns false. -/
theorem session_validity (now : Nat) (st : AuthState) :
    ((isSessionValid now st).1 = true ↔
      ∃ s, st.session = some s ∧ now ≤ s.expiresAt) ∧
    (∀ s, st.session = some s → s.expiresAt < now →
      isSessionValid now st = (false, { st with session := none }) ∧
      (∀ now2, (isSessionValid now2 (isSessionValid now st).2).1 = false)) := by
  constructor
  · cases hs : st.session with
    | none => simp [isSessionValid, hs]
    | some s =>
      by_cases hexp : now > s.expiresAt
      · simp only [isSessionValid, hs]
        rw [if_pos hexp]
        simp only [logout]
        constructor
        · intro hc
          exact absurd hc (by simp)
        · rintro ⟨s', hs', hle⟩
          cases hs'
          omega
      · simp only [isSessionValid, hs]
        rw [if_neg hexp]
        constructor
        · intro _
          exact ⟨s, rfl, by omega⟩
        · intro _
          rfl
  · intro s hs hexp
    have h1 : isSessionValid now st = (false, { st with session := none }) := by
      simp only [isSessionValid, hs]
      rw [if_pos hexp]
      rfl
    refine ⟨h1, fun now2 => ?_⟩
    rw [h1]
    simp [isSessionValid]

/-- Witness for the amended C2 at an expired session (`expiresAt = 5`,
`now = 10`): the check returns false and deletes the session, and a following
check still returns false. -/
theorem session_validity_witness :
    isSessionValid 10 ⟨none, some ⟨"t", 0, 5⟩, none⟩ =
      (false, ⟨none, none, none⟩) ∧
    (isSessionValid 11 (isSessionValid 10 ⟨none, some ⟨"t", 0, 5⟩, none⟩).2).1 =
      false := by
  have h := (session_validity 10 ⟨none, some ⟨"t", 0, 5⟩, none⟩).2
    ⟨"t", 0, 5⟩ rfl (by decide)
  exact ⟨h.1, h.2 11⟩

/-- C9: `extendSession` never checks expiry: with any stored session —
including one already expired but not yet deleted — it overwrites `expiresAt`
with `now + SESSION_TIMEOUT` and returns true, so the session validates again;
it returns false exactly when no session is stored (storage reads are
error-free in this model). -/
theorem extend_session_spec (now : Nat) (st : AuthState) :
    (st.session = none → extendSession now st = (false, st)) ∧
    (∀ s, st.session = some s →
      extendSession now st =
        (true,
          { st with
            session := some ⟨s.token, s.createdAt, now + SESSION_TIMEOUT⟩ }) ∧
      (∀ t2, t2 ≤ now + SESSION_TIMEOUT →
        (isSessionValid t2 (extendSession now st).2).1 = true)) ∧
    ((extendSession now st).1 = false → st.session = none) := by
  refine ⟨fun h => ?_, fun s hs => ?_, fun h => ?_⟩
  · simp only [extendSession, h]
  · have h1 : extendSession now st =
        (true,
          { st with
            session := some ⟨s.token, s.createdAt, now + SESSION_TIMEOUT⟩ }) := by
      simp only [extendSession, hs]
    refine ⟨h1, fun t2 ht2 => ?_⟩
    rw [h1]
    simp only [isSessionValid]
    rw [if_neg (by omega)]
  · cases hs : st.session with
    | none => rfl
    | some s =>
      rw [(by simp only [extendSession, hs] :
        extendSession now st =
          (true,
            { st with
              session := some ⟨s.token, s.createdAt, now + SESSION_TIMEOUT⟩ }))] at h
      exact absurd h (by simp)

/-- Witness for C9 at an expired session (`expiresAt = 5`, `now = 100`): the
session is extended to `100 + SESSION_TIMEOUT` and validates again. -/
theorem extend_session_spec_witness :
    extendSession 100 ⟨none, some ⟨"t", 0, 5⟩, none⟩ =
      (true, ⟨none, some ⟨"t", 0, 100 + SESSION_TIMEOUT⟩, none⟩) ∧
    (isSessionValid 100
      (extendSession 100 ⟨none, some ⟨"t", 0, 5⟩, none⟩).2).1 = true := by
  have h := (extend_session_spec 100 ⟨none, some ⟨"t", 0, 5⟩, none⟩).2.1
    ⟨"t", 0, 5⟩ rfl
  exact ⟨h.1, h.2 100 (Nat.le_add_right 100 SESSION_TIMEOUT)⟩

theorem verify_wrong_start (hash : String → String → String) (newToken : String)
    (now : Nat) (password : String) (st : AuthState) (cred : Credentials)
    (hcred : st.credentials = some cred)
    (hw : hash password cred.salt ≠ cred.hash)
    (hfa : st.failedAttempts = none) :
    verifyAdminPassword hash newToken now password st =
      (.error (.invalidPassword 4),
       { st with failedAttempts := some ⟨1, none⟩ }) := by
  obtain ⟨c, s, fa⟩ := st
  have hc : c = some cred := hcred
  have hf : fa = none := hfa
  subst hc hf
  simp [verifyAdminPassword, getLockoutStatus, recordFailedAttempt,
    MAX_FAILED_ATTEMPTS, hw]

theorem verify_wrong_next (hash : String → String → String) (newToken : String)
    (now : Nat) (password : String) (st : AuthState) (cred : Credentials)
    (k : Nat) (hcred : st.credentials = some cred)
    (hw : hash password cred.salt ≠ cred.hash)
    (hfa : st.failedAttempts = some ⟨k, none⟩) (hk : k + 1 < 5) :
    verifyAdminPassword hash newToken now password st =
      (.error (.invalidPassword (5 - (k + 1))),
       { st with failedAttempts := some ⟨k + 1, none⟩ }) := by
  obtain ⟨c, s, fa⟩ := st
  have hc : c = some cred := hcred
  have hf : fa = some ⟨k, none⟩ := hfa
  subst hc hf
  have h5 : ¬ (k + 1 ≥ MAX_FAILED_ATTEMPTS) := by
    simp only [MAX_FAILED_ATTEMPTS]
    omega
  have h4 : ¬ 4 ≤ k := by omega
  simp [verifyAdminPassword, getLockoutStatus, recordFailedAttempt,
    MAX_FAILED_ATTEMPTS, hw, h5, decide_eq_false h5, h4]

theorem verify_wrong_locks (hash : String → String → String) (newToken : String)
    (now : Nat) (password : String) (st : AuthState) (cred : Credentials)
    (hcred : st.credentials = some cred)
    (hw : hash password cred.salt ≠ cred.hash)
    (hfa : st.failedAttempts = some ⟨4, none⟩) :
    verifyAdminPassword hash newToken now password st =
      (.error .tooManyAttempts,
       { st with failedAttempts := some ⟨5, some (now + LOCKOUT_DURATION)⟩ }) := by
  obtain ⟨c, s, fa⟩ := st
  have hc : c = some cred := hcred
  have hf : fa = some ⟨4, none⟩ := hfa
  subst hc hf
  simp [verifyAdminPassword, getLockoutStatus, recordFailedAttempt,
    MAX_FAILED_ATTEMPTS, hw]

theorem verify_locked (hash : String → String → String) (newToken : String)
    (now : Nat) (password : String) (st : AuthState) (a u : Nat)
    (hfa : st.failedAttempts = some ⟨a, some u⟩)
    (hu : 0 < u) (hnow : now < u) :
    verifyAdminPassword hash newToken now password st =
      (.error (.lockedOut ((u - now + 59999) / 60000)), st) := by
  obtain ⟨c, s, fa⟩ := st
  have hf : fa = some ⟨a, some u⟩ := hfa
  subst hf
  have hgl : getLockoutStatus now ⟨c, s, some ⟨a, some u⟩⟩ =
      (⟨true, u - now, a⟩, ⟨c, s, some ⟨a, some u⟩⟩) := by
    simp only [getLockoutStatus]
    rw [if_pos (by omega)]
  simp [verifyAdminPassword, hgl]

/-- C1: from a state with a credential and no failed-attempt record, five
wrong-password calls yield invalid-password errors with 4, 3, 2 and 1
remaining attempts and then, on the fifth, the too-many-attempts error
together with `lockoutUntil = t5 + LOCKOUT_DURATION`; a lockout-status check
before that time reports locked, and a sixth call before the window elapses
fails with the locked-out error and not with any invalid-password error. -/
theorem lockout_scenario (hash : String → String → String) (newToken : String)
    (password : String) (c : Option Credentials) (s : Option Session)
    (cred : Credentials) (t1 t2 t3 t4 t5 tq t6 : Nat)
    (hcred : c = some cred)
    (hw : hash password cred.salt ≠ cred.hash)
    (hq : tq < t5 + LOCKOUT_DURATION)
    (h6 : t6 < t5 + LOCKOUT_DURATION) :
    verifyAdminPassword hash newToken t1 password ⟨c, s, none⟩ =
      (.error (.invalidPassword 4), ⟨c, s, some ⟨1, none⟩⟩) ∧
    verifyAdminPassword hash newToken t2 password ⟨c, s, some ⟨1, none⟩⟩ =
      (.error (.invalidPassword 3), ⟨c, s, some ⟨2, none⟩⟩) ∧
    verifyAdminPassword hash newToken t3 password ⟨c, s, some ⟨2, none⟩⟩ =
      (.error (.invalidPassword 2), ⟨c, s, some ⟨3, none⟩⟩) ∧
    verifyAdminPassword hash newToken t4 password ⟨c, s, some ⟨3, none⟩⟩ =
      (.error (.invalidPassword 1), ⟨c, s, some ⟨4, none⟩⟩) ∧
    verifyAdminPassword hash newToken t5 password ⟨c, s, some ⟨4, none⟩⟩ =
      (.error .tooManyAttempts,
       ⟨c, s, some ⟨5, some (t5 + LOCKOUT_DURATION)⟩⟩) ∧
    (getLockoutStatus tq
      ⟨c, s, some ⟨5, some (t5 + LOCKOUT_DURATION)⟩⟩).1.isLocked = true ∧
    verifyAdminPassword hash newToken t6 password
        ⟨c, s, some ⟨5, some (t5 + LOCKOUT_DURATION)⟩⟩ =
      (.error (.lockedOut ((t5 + LOCKOUT_DURATION - t6 + 59999) / 60000)),
       ⟨c, s, some ⟨5, some (t5 + LOCKOUT_DURATION)⟩⟩) ∧
    (∀ n, (verifyAdminPassword hash newToken t6 password
        ⟨c, s, some ⟨5, some (t5 + LOCKOUT_DURATION)⟩⟩).1 ≠
      .error (.invalidPassword n)) := by
  have hL : LOCKOUT_DURATION = 900000 := rfl
  have h7 := verify_locked hash newToken t6 password
    ⟨c, s, some ⟨5, some (t5 + LOCKOUT_DURATION)⟩⟩ 5 (t5 + LOCKOUT_DURATION)
    rfl (by omega) h6
  refine ⟨verify_wrong_start hash newToken t1 password ⟨c, s, none⟩ cred
      hcred hw rfl,
    verify_wrong_next hash newToken t2 password ⟨c, s, some ⟨1, none⟩⟩ cred 1
      hcred hw rfl (by omega),
    verify_wrong_next hash newToken t3 password ⟨c, s, some ⟨2, none⟩⟩ cred 2
      hcred hw rfl (by omega),
    verify_wrong_next hash newToken t4 password ⟨c, s, some ⟨3, none⟩⟩ cred 3
      hcred hw rfl (by omega),
    verify_wrong_locks hash newToken t5 password ⟨c, s, some ⟨4, none⟩⟩ cred
      hcred hw rfl, ?_, h7, ?_⟩
  · simp only [getLockoutStatus]
    rw [if_pos (by omega)]
  · intro n hn
    rw [h7] at hn
    simp at hn

/-- Witness for C1 at `hash := fun p _ => p`, stored digest `"h"`, wrong
password `"w"`, all times 0: the fifth-call lockout, locked status, and
sixth-call locked-out error, instantiated concretely. -/
theorem lockout_scenario_witness :
    verifyAdminPassword (fun p _ => p) "tok" 0 "w"
        ⟨some ⟨"h", "s", 0, 0⟩, none, some ⟨4, none⟩⟩ =
      (.error .tooManyAttempts,
       ⟨some ⟨"h", "s", 0, 0⟩, none, some ⟨5, some (0 + LOCKOUT_DURATION)⟩⟩) ∧
    (getLockoutStatus 0
      ⟨some ⟨"h", "s", 0, 0⟩, none,
       some ⟨5, some (0 + LOCKOUT_DURATION)⟩⟩).1.isLocked = true ∧
    verifyAdminPassword (fun p _ => p) "tok" 0 "w"
        ⟨some ⟨"h", "s", 0, 0⟩, none, some ⟨5, some (0 + LOCKOUT_DURATION)⟩⟩ =
      (.error (.lockedOut ((0 + LOCKOUT_DURATION - 0 + 59999) / 60000)),
       ⟨some ⟨"h", "s", 0, 0⟩, none, some ⟨5, some (0 + LOCKOUT_DURATION)⟩⟩) := by
  have h := lockout_scenario (fun p _ => p) "tok" "w" (some ⟨"h", "s", 0, 0⟩)
    none ⟨"h", "s", 0, 0⟩ 0 0 0 0 0 0 0 rfl (by decide) (by decide) (by decide)
  exact ⟨h.2.2.2.2.1, h.2.2.2.2.2.1, h.2.2.2.2.2.2.1⟩

/-- C5: with a credential stored, no active lockout, and a password whose
digest matches, verification deletes the failed-attempt record entirely,
stores a session with the fresh token expiring at `now + SESSION_TIMEOUT`,
and returns success with that token. -/
theorem verify_correct_password (hash : String → String → String)
    (newToken : String) (now : Nat) (password : String) (st : AuthState)
    (cred : Credentials) (hcred : st.credentials = some cred)
    (hmatch : hash password cred.salt = cred.hash)
    (hnl : (getLockoutStatus now st).1.isLocked = false) :
    verifyAdminPassword hash newToken now password st =
      (.ok newToken,
       ⟨st.credentials, some ⟨newToken, now, now + SESSION_TIMEOUT⟩, none⟩) := by
  obtain ⟨c, s, fa⟩ := st
  have hc : c = some cred := hcred
  subst hc
  cases fa with
  | none =>
    simp [verifyAdminPassword, getLockoutStatus, clearFailedAttempts, hmatch]
  | some a =>
    obtain ⟨att, lu⟩ := a
    cases lu with
    | none =>
      simp [verifyAdminPassword, getLockoutStatus, clearFailedAttempts, hmatch]
    | some u =>
      by_cases hcond : u ≠ 0 ∧ now < u
      · exfalso
        have hl : (getLockoutStatus now
            ⟨some cred, s, some ⟨att, some u⟩⟩).1.isLocked = true := by
          simp only [getLockoutStatus]
          rw [if_pos hcond]
        rw [hnl] at hl
        exact Bool.false_ne_true hl
      · by_cases hcond2 : u ≠ 0 ∧ now ≥ u
        · have hgl : getLockoutStatus now ⟨some cred, s, some ⟨att, some u⟩⟩ =
              (⟨false, 0, 0⟩, ⟨some cred, s, none⟩) := by
            simp only [getLockoutStatus]
            rw [if_neg hcond, if_pos hcond2]
          simp [verifyAdminPassword, hgl, clearFailedAttempts, hmatch]
        · have hgl : getLockoutStatus now ⟨some cred, s, some ⟨att, some u⟩⟩ =
              (⟨false, 0, att⟩, ⟨some cred, s, some ⟨att, some u⟩⟩) := by
            simp only [getLockoutStatus]
            rw [if_neg hcond, if_neg hcond2]
          simp [verifyAdminPassword, hgl, clearFailedAttempts, hmatch]

/-- Witness for C5 at `hash := fun p _ => p`, stored digest `"pw"`, matching
password `"pw"`, `now = 7`. -/
theorem verify_correct_password_witness :
    verifyAdminPassword (fun p _ => p) "tok" 7 "pw"
        ⟨some ⟨"pw", "s", 0, 0⟩, none, none⟩ =
      (.ok "tok",
       ⟨some ⟨"pw", "s", 0, 0⟩, some ⟨"tok", 7, 7 + SESSION_TIMEOUT⟩, none⟩) :=
  verify_correct_password (fun p _ => p) "tok" 7 "pw"
    ⟨some ⟨"pw", "s", 0, 0⟩, none, none⟩ ⟨"pw", "s", 0, 0⟩ rfl rfl (by decide)

/-- C7: `changeAdminPassword` fails `weakPassword` when the new password is
shorter than six characters, leaving the state untouched; otherwise it runs
the full `verifyAdminPassword` on the current password and propagates both its
error and its state change — in particular a wrong current password on a fresh
failed-attempt record consumes one attempt and fails `invalidPassword` with 4
remaining — and only on verify success does it overwrite the credential with
the fresh salt and digest and delete the session via `logout`. -/
theorem change_password_spec (hash : String → String → String)
    (newSalt newToken : String) (now : Nat)
    (currentPassword newPassword : String) (st : AuthState) :
    (newPassword.length < 6 →
      changeAdminPassword hash newSalt newToken now currentPassword newPassword
        st = (.error .weakPassword, st)) ∧
    (¬ newPassword.length < 6 →
      (∀ e st1,
        verifyAdminPassword hash newToken now currentPassword st =
          (.error e, st1) →
        changeAdminPassword hash newSalt newToken now currentPassword
          newPassword st = (.error e, st1)) ∧
      (∀ t st1,
        verifyAdminPassword hash newToken now currentPassword st =
          (.ok t, st1) →
        changeAdminPassword hash newSalt newToken now currentPassword
          newPassword st =
          (.ok true,
           ⟨some ⟨hash newPassword newSalt, newSalt, now, now⟩, none,
            st1.failedAttempts⟩))) ∧
    (∀ cred, ¬ newPassword.length < 6 → st.credentials = some cred →
      st.failedAttempts = none →
      hash currentPassword cred.salt ≠ cred.hash →
      changeAdminPassword hash newSalt newToken now currentPassword newPassword
        st =
        (.error (.invalidPassword 4),
         { st with failedAttempts := some ⟨1, none⟩ })) := by
  refine ⟨fun h => ?_, fun h' => ⟨fun e st1 hv => ?_, fun t st1 hv => ?_⟩,
    fun cred h' hcred hfa hw => ?_⟩
  · simp only [changeAdminPassword]
    rw [if_pos h]
  · simp only [changeAdminPassword]
    rw [if_neg h', hv]
  · simp only [changeAdminPassword]
    rw [if_neg h', hv]
    simp [logout]
  · simp only [changeAdminPassword]
    rw [if_neg h', verify_wrong_start hash newToken now currentPassword st cred
      hcred hw hfa]

/-- Witness for C7: a short new password fails weak; a wrong current password
consumes an attempt; a correct current password rewrites the credential with
the fresh salt and digest and ends with no session. -/
theorem change_password_spec_witness :
    changeAdminPassword (fun p _ => p) "ns" "tok" 3 "cur" "abc"
        ⟨some ⟨"h", "s", 0, 0⟩, none, none⟩ =
      (.error .weakPassword, ⟨some ⟨"h", "s", 0, 0⟩, none, none⟩) ∧
    changeAdminPassword (fun p _ => p) "ns" "tok" 3 "wrong" "abcdef"
        ⟨some ⟨"h", "s", 0, 0⟩, none, none⟩ =
      (.error (.invalidPassword 4),
       ⟨some ⟨"h", "s", 0, 0⟩, none, some ⟨1, none⟩⟩) ∧
    changeAdminPassword (fun p _ => p) "ns" "tok" 3 "h" "abcdef"
        ⟨some ⟨"h", "s", 0, 0⟩, none, none⟩ =
      (.ok true, ⟨some ⟨"abcdef", "ns", 3, 3⟩, none, none⟩) := by
  have h1 := (change_password_spec (fun p _ => p) "ns" "tok" 3 "cur" "abc"
    ⟨some ⟨"h", "s", 0, 0⟩, none, none⟩).1 (by decide)
  have h2 := (change_password_spec (fun p _ => p) "ns" "tok" 3 "wrong" "abcdef"
    ⟨some ⟨"h", "s", 0, 0⟩, none, none⟩).2.2 ⟨"h", "s", 0, 0⟩ (by decide) rfl
    rfl (by decide)
  have h3 := ((change_password_spec (fun p _ => p) "ns" "tok" 3 "h" "abcdef"
    ⟨some ⟨"h", "s", 0, 0⟩, none, none⟩).2.1 (by decide)).2 "tok"
    ⟨some ⟨"h", "s", 0, 0⟩, some ⟨"tok", 3, 3 + SESSION_TIMEOUT⟩, none⟩
    (by decide)
  exact ⟨h1, h2, h3⟩

end FurnitureVisualizer
